import Mathlib

/-!
Verification of the seasonal snow transport engine of `helpers/Snow_drift.py`.

The Python module works over floats and pandas Timestamps.  We embed it
shallowly:

* float arithmetic becomes exact real arithmetic (`ℝ`), with `u ** 3.8`
  rendered as the real power `u ^ (3.8 : ℝ)`;
* pandas Timestamps become civil tuples (year, month, day, hour, minute,
  second) over `ℤ`, compared and subtracted through their count of seconds
  since 1970-01-01 in the proleptic Gregorian calendar (`Ts.toSec`), which is
  exactly the ordering and difference semantics of pandas Timestamps;
* dataframes become lists of row structures, and the per-season loops become
  folds / `filterMap` over the list of sorted distinct season years.
-/

namespace SnowDrift

/-- Days since 1970-01-01 of a proleptic Gregorian civil date, the calendar
pandas Timestamps use (era-free form of the standard days-from-civil
algorithm; divisions only involve numeral divisors). -/
def daysFromCivil (y m d : ℤ) : ℤ :=
  let y2 : ℤ := if m ≤ 2 then y - 1 else y
  let mp : ℤ := (m + 9) % 12
  365 * y2 + y2.ediv 4 - y2.ediv 100 + y2.ediv 400 + (153 * mp + 2).ediv 5 + d - 1 - 719468

/-- A pandas Timestamp at second resolution (the module only ever builds
timestamps down to minutes, but the spec distinguishes 23:59:00 from
23:59:59, so seconds are kept). -/
structure Ts where
  year : ℤ
  month : ℤ
  day : ℤ
  hour : ℤ
  minute : ℤ
  second : ℤ
deriving DecidableEq

/-- Seconds since the epoch: the absolute instant a Timestamp denotes;
pandas comparison and subtraction of Timestamps is comparison and
subtraction of these values. -/
def Ts.toSec (t : Ts) : ℤ :=
  daysFromCivil t.year t.month t.day * 86400 + t.hour * 3600 + t.minute * 60 + t.second

/-- Python float modulo `x % y` (sign of the divisor; for `y > 0` the result
lies in `[0, y)`). -/
noncomputable def fmod (x y : ℝ) : ℝ := x - y * ⌊x / y⌋

/-- Embeds `compute_Qupot`: `sum((u ** 3.8) * dt for u in ws) / 233847`. -/
noncomputable def compute_Qupot (ws : List ℝ) (dt : ℝ := 3600) : ℝ :=
  (ws.map (fun u => u ^ (3.8 : ℝ) * dt)).sum / 233847

/-- Embeds `sector_index`: `int(((direction + 11.25) % 360) // 22.5)`
(the argument of `int` is a nonnegative integral float, so `int` is exact). -/
noncomputable def sector_index (direction : ℝ) : ℤ :=
  ⌊fmod (direction + 11.25) 360 / 22.5⌋

/-- Embeds `compute_sector_transport`: starts from 16 zero bins and, for each
`(u, d)` pair produced by `zip` (which truncates to the shorter input), adds
`((u ** 3.8) * dt) / 233847` into bin `sector_index d`.  The index provably
lies in `[0, 15]` (`sector_index_mem`), so the Python list write never wraps
or faults and `List.set` models it exactly. -/
noncomputable def compute_sector_transport (ws ds : List ℝ) (dt : ℝ := 3600) : List ℝ :=
  (ws.zip ds).foldl
    (fun sectors p =>
      sectors.set (sector_index p.2).toNat
        (sectors.getD (sector_index p.2).toNat 0 + p.1 ^ (3.8 : ℝ) * dt / 233847))
    (List.replicate 16 0)

/-- Result record of `compute_snow_transport` (the Python dict with keys
Qupot, Qspot, Srwe, Qinf, Qt, Control). -/
structure Transport where
  Qupot : ℝ
  Qspot : ℝ
  Srwe : ℝ
  Qinf : ℝ
  Qt : ℝ
  control : String

/-- Embeds `compute_snow_transport`.  The Python body binds
`Qupot = compute_Qupot(ws, dt)`, `Qspot = 0.5 * T * Swe`, `Srwe = theta * Swe`,
branches on `Qupot > Qspot` to pick `Qinf` and the control label, and sets
`Qt = Qinf * (1 - 0.14 ** (F / T))`; the shared subterms are written out in
each field instead of let-bound, which is the same function. -/
noncomputable def compute_snow_transport (T F theta Swe : ℝ) (ws : List ℝ)
    (dt : ℝ := 3600) : Transport :=
  { Qupot := compute_Qupot ws dt
    Qspot := 0.5 * T * Swe
    Srwe := theta * Swe
    Qinf :=
      if compute_Qupot ws dt > 0.5 * T * Swe then 0.5 * T * (theta * Swe)
      else compute_Qupot ws dt
    Qt :=
      (if compute_Qupot ws dt > 0.5 * T * Swe then 0.5 * T * (theta * Swe)
        else compute_Qupot ws dt) * (1 - (0.14 : ℝ) ^ (F / T))
    control :=
      if compute_Qupot ws dt > 0.5 * T * Swe then "Snowfall controlled"
      else "Wind controlled" }

/-- Embeds `assign_season`: `dt.year if dt.month >= 7 else dt.year - 1`. -/
def assign_season (t : Ts) : ℤ :=
  if 7 ≤ t.month then t.year else t.year - 1

/-- C4: season assignment returns the calendar year exactly when the month is
at least 7 and the calendar year minus one otherwise; in particular
2021-06-30 23:59:00 is assigned 2020 and 2021-07-01 00:00:00 is assigned
2021, so every observation has exactly one season. -/
theorem assign_season_spec :
    (∀ t : Ts, (assign_season t = t.year ↔ 7 ≤ t.month) ∧
      (assign_season t = t.year - 1 ↔ t.month < 7)) ∧
    assign_season ⟨2021, 6, 30, 23, 59, 0⟩ = 2020 ∧
    assign_season ⟨2021, 7, 1, 0, 0, 0⟩ = 2021 := by
  refine ⟨fun t => ?_, by decide, by decide⟩
  unfold assign_season
  by_cases h : 7 ≤ t.month
  · simp [h]; omega
  · simp [h]; omega

lemma fmod_nonneg (x : ℝ) {y : ℝ} (hy : 0 < y) : 0 ≤ fmod x y := by
  have h := Int.fract_nonneg (x / y)
  have hfr : fmod x y = y * Int.fract (x / y) := by
    unfold fmod Int.fract
    field_simp
  rw [hfr]
  positivity

lemma fmod_lt (x : ℝ) {y : ℝ} (hy : 0 < y) : fmod x y < y := by
  have hfr : fmod x y = y * Int.fract (x / y) := by
    unfold fmod Int.fract
    field_simp
  rw [hfr]
  calc y * Int.fract (x / y) < y * 1 := by
        exact (mul_lt_mul_left hy).mpr (Int.fract_lt_one _)
    _ = y := mul_one y

lemma fmod_add_right (x : ℝ) : fmod (x + 360) 360 = fmod x 360 := by
  unfold fmod
  have h : (x + 360) / 360 = x / 360 + (1 : ℤ) := by push_cast; ring
  rw [h, Int.floor_add_int]
  push_cast
  ring

/-- Shared helper: the sector index is always between 0 and 15. -/
lemma sector_index_mem (d : ℝ) : 0 ≤ sector_index d ∧ sector_index d ≤ 15 := by
  unfold sector_index
  constructor
  · apply Int.floor_nonneg.mpr
    have := fmod_nonneg (d + 11.25) (by norm_num : (0:ℝ) < 360)
    positivity
  · have hlt : fmod (d + 11.25) 360 / 22.5 < 16 := by
      have h1 := fmod_lt (d + 11.25) (by norm_num : (0:ℝ) < 360)
      rw [div_lt_iff₀ (by norm_num : (0:ℝ) < 22.5)]
      linarith
    have h2 : (⌊fmod (d + 11.25) 360 / 22.5⌋ : ℝ) < 16 :=
      lt_of_le_of_lt (Int.floor_le _) hlt
    have : ⌊fmod (d + 11.25) 360 / 22.5⌋ < 16 := by exact_mod_cast h2
    omega

/-- C7: the sector index is 360-periodic, always lies in [0, 15], and on
[0, 360) equals the floor of ((d + 11.25) mod 360) / 22.5, so every direction
maps to exactly one of the 16 sectors. -/
theorem sector_index_spec (d : ℝ) :
    sector_index (d + 360) = sector_index d ∧
    (0 ≤ sector_index d ∧ sector_index d ≤ 15) ∧
    (0 ≤ d → d < 360 → sector_index d = ⌊fmod (d + 11.25) 360 / 22.5⌋) := by
  refine ⟨?_, sector_index_mem d, fun _ _ => rfl⟩
  unfold sector_index
  have h : d + 360 + 11.25 = d + 11.25 + 360 := by ring
  rw [h, fmod_add_right]

/-- Witness for C7 at direction 0. -/
theorem sector_index_spec_witness :
    (0 : ℝ) ≤ 0 ∧ (0 : ℝ) < 360 ∧
    sector_index ((0 : ℝ) + 360) = sector_index 0 ∧
    (0 ≤ sector_index 0 ∧ sector_index 0 ≤ 15) ∧
    sector_index 0 = ⌊fmod ((0 : ℝ) + 11.25) 360 / 22.5⌋ := by
  have h := sector_index_spec 0
  exact ⟨le_refl 0, by norm_num, h.1, h.2.1, h.2.2 (le_refl 0) (by norm_num)⟩

/-! Wind transport potential: emptiness, zero wind, monotonicity (C8),
and the law relating the sector accumulation to the total potential (C2). -/

/-- Shared helper: the potential of an all-zero wind series is exactly 0
(each term is `0 ** 3.8 * dt = 0`). -/
lemma Qupot_all_zero (ws : List ℝ) (dt : ℝ) (h : ∀ u ∈ ws, u = 0) :
    compute_Qupot ws dt = 0 := by
  unfold compute_Qupot
  rw [List.sum_eq_zero, zero_div]
  intro x hx
  obtain ⟨u, hu, rfl⟩ := List.mem_map.mp hx
  rw [h u hu, Real.zero_rpow (by norm_num), zero_mul]

/-- Shared helper: dividing each list element by a constant divides the sum. -/
lemma list_sum_div (l : List ℝ) (c : ℝ) :
    (l.map (fun x => x / c)).sum = l.sum / c := by
  induction l with
  | nil => simp
  | cons a t ih => simp [List.sum_cons, ih, add_div]

/-- C8: `compute_Qupot` is 0 on the empty list and on all-zero lists, and is
monotone when a single element is increased (the others held fixed), for
nonnegative elements and a nonnegative sampling interval. -/
theorem Qupot_spec :
    (∀ dt : ℝ, compute_Qupot [] dt = 0) ∧
    (∀ (ws : List ℝ) (dt : ℝ), (∀ u ∈ ws, u = 0) → compute_Qupot ws dt = 0) ∧
    (∀ (pre post : List ℝ) (a b dt : ℝ), 0 ≤ a → a ≤ b → 0 ≤ dt →
      compute_Qupot (pre ++ a :: post) dt ≤ compute_Qupot (pre ++ b :: post) dt) := by
  refine ⟨fun dt => by simp [compute_Qupot], Qupot_all_zero, ?_⟩
  intro pre post a b dt ha hab hdt
  unfold compute_Qupot
  have hterm : a ^ (3.8 : ℝ) * dt ≤ b ^ (3.8 : ℝ) * dt :=
    mul_le_mul_of_nonneg_right (Real.rpow_le_rpow ha hab (by norm_num)) hdt
  have hsum : ((pre ++ a :: post).map (fun u => u ^ (3.8 : ℝ) * dt)).sum ≤
      ((pre ++ b :: post).map (fun u => u ^ (3.8 : ℝ) * dt)).sum := by
    simp only [List.map_append, List.map_cons, List.sum_append, List.sum_cons]
    linarith
  gcongr

/-- Witness for C8: the empty list, the all-zero list `[0]`, and raising the
single element 0 to 1 at `dt = 3600`. -/
theorem Qupot_spec_witness :
    compute_Qupot [] 3600 = 0 ∧
    ((∀ u ∈ [(0 : ℝ)], u = 0) ∧ compute_Qupot [(0 : ℝ)] 3600 = 0) ∧
    ((0 : ℝ) ≤ 0 ∧ (0 : ℝ) ≤ 1 ∧ (0 : ℝ) ≤ 3600 ∧
      compute_Qupot ([] ++ (0 : ℝ) :: []) 3600 ≤ compute_Qupot ([] ++ (1 : ℝ) :: []) 3600) :=
  ⟨Qupot_spec.1 3600,
   ⟨by simp, Qupot_spec.2.1 [0] 3600 (by simp)⟩,
   ⟨le_refl 0, by norm_num, by norm_num,
    Qupot_spec.2.2 [] [] 0 1 3600 (le_refl 0) (by norm_num) (by norm_num)⟩⟩

/-- Shared helper: adding `v` onto position `i` of a list sums to the old sum
plus `v`. -/
lemma sum_set_getD (v : ℝ) :
    ∀ (l : List ℝ) (i : ℕ), i < l.length →
      (l.set i (l.getD i 0 + v)).sum = l.sum + v := by
  intro l
  induction l with
  | nil => intro i h; simp at h
  | cons a t ih =>
    intro i h
    cases i with
    | zero =>
      simp [List.sum_cons]
      ring
    | succ n =>
      have hn : n < t.length := by simpa using h
      simp only [List.getD_cons_succ, List.set_cons_succ, List.sum_cons, ih n hn]
      ring

/-- Shared helper: the sector fold never changes the number of bins. -/
lemma sector_foldl_length (dt : ℝ) :
    ∀ (ps : List (ℝ × ℝ)) (init : List ℝ),
      (ps.foldl
        (fun sectors p =>
          sectors.set (sector_index p.2).toNat
            (sectors.getD (sector_index p.2).toNat 0 + p.1 ^ (3.8 : ℝ) * dt / 233847))
        init).length = init.length := by
  intro ps
  induction ps with
  | nil => intro init; rfl
  | cons p t ih =>
    intro init
    simp only [List.foldl_cons, ih, List.length_set]

/-- Shared helper: the sector fold adds exactly the per-sample contributions
to the total of the bins. -/
lemma sector_foldl_sum (dt : ℝ) :
    ∀ (ps : List (ℝ × ℝ)) (init : List ℝ), init.length = 16 →
      (ps.foldl
        (fun sectors p =>
          sectors.set (sector_index p.2).toNat
            (sectors.getD (sector_index p.2).toNat 0 + p.1 ^ (3.8 : ℝ) * dt / 233847))
        init).sum = init.sum + (ps.map (fun p => p.1 ^ (3.8 : ℝ) * dt / 233847)).sum := by
  intro ps
  induction ps with
  | nil => intro init _; simp
  | cons p t ih =>
    intro init hlen
    have hidx : (sector_index p.2).toNat < init.length := by
      have hb := sector_index_mem p.2
      omega
    simp only [List.foldl_cons, List.map_cons, List.sum_cons]
    rw [ih _ (by rw [List.length_set]; exact hlen),
      sum_set_getD _ init _ hidx]
    ring

/-- C2: when the wind-speed and wind-direction series have equal length, the
16 sector bins sum exactly to the total wind transport potential of the same
wind-speed series (each sample lands in exactly one bin). -/
theorem sector_sum_eq_Qupot (ws ds : List ℝ) (dt : ℝ) (h : ws.length = ds.length) :
    (compute_sector_transport ws ds dt).sum = compute_Qupot ws dt := by
  unfold compute_sector_transport compute_Qupot
  rw [sector_foldl_sum dt _ _ (by simp)]
  have hfst : (ws.zip ds).map Prod.fst = ws := List.map_fst_zip ws ds (le_of_eq h)
  have hmap : ((ws.zip ds).map (fun p => p.1 ^ (3.8 : ℝ) * dt / 233847)) =
      ws.map (fun u => u ^ (3.8 : ℝ) * dt / 233847) := by
    rw [show (fun p : ℝ × ℝ => p.1 ^ (3.8 : ℝ) * dt / 233847) =
        (fun u : ℝ => u ^ (3.8 : ℝ) * dt / 233847) ∘ Prod.fst from rfl,
      ← List.map_map, hfst]
  rw [hmap, show (fun u : ℝ => u ^ (3.8 : ℝ) * dt / 233847) =
      (fun x : ℝ => x / 233847) ∘ (fun u : ℝ => u ^ (3.8 : ℝ) * dt) from rfl,
    ← List.map_map, list_sum_div]
  simp

/-- Witness for C2 on the equal-length pair `[0]`, `[0]`. -/
theorem sector_sum_eq_Qupot_witness :
    ([(0 : ℝ)].length = [(0 : ℝ)].length) ∧
    (compute_sector_transport [(0 : ℝ)] [(0 : ℝ)] 3600).sum = compute_Qupot [(0 : ℝ)] 3600 :=
  ⟨rfl, sector_sum_eq_Qupot [0] [0] 3600 rfl⟩

/-- Shared helper: `zip` only consumes the first `min` elements of each list. -/
lemma zip_take_min {α β : Type} :
    ∀ (ws : List α) (ds : List β),
      ws.zip ds = (ws.take (min ws.length ds.length)).zip (ds.take (min ws.length ds.length))
  | [], _ => by simp
  | _ :: _, [] => by simp
  | a :: ws, b :: ds => by
    simp only [List.length_cons, List.zip_cons_cons, Nat.succ_min_succ, List.take_succ_cons]
    exact congrArg (List.cons (a, b)) (zip_take_min ws ds)

/-- C10: with mismatched series lengths `compute_sector_transport` still
returns a 16-bin vector, accumulating the first `min` paired samples only
(Python `zip` truncates to the shorter sequence), so the surplus elements of
the longer sequence are silently ignored. -/
theorem sector_transport_truncates (ws ds : List ℝ) (dt : ℝ) :
    (compute_sector_transport ws ds dt).length = 16 ∧
    compute_sector_transport ws ds dt =
      compute_sector_transport (ws.take (min ws.length ds.length))
        (ds.take (min ws.length ds.length)) dt := by
  constructor
  · unfold compute_sector_transport
    rw [sector_foldl_length]
    simp
  · unfold compute_sector_transport
    rw [← zip_take_min]

/-! The regime switch of `compute_snow_transport` (C1, C3). -/

/-- Shared helper: with an all-zero wind series the potential is 0, so the
branch `Qupot > Qspot` is not taken whenever `Qspot` is nonnegative, and the
function reports the wind-controlled regime with no realized transport. -/
lemma snow_transport_all_zero_wind (T F theta Swe dt : ℝ) (ws : List ℝ)
    (hw : ∀ u ∈ ws, u = 0) (hq : 0 ≤ 0.5 * T * Swe) :
    (compute_snow_transport T F theta Swe ws dt).control = "Wind controlled" ∧
    (compute_snow_transport T F theta Swe ws dt).Qinf = 0 := by
  have h0 := Qupot_all_zero ws dt hw
  have hnot : ¬ compute_Qupot ws dt > 0.5 * T * Swe := by
    rw [h0]
    exact not_lt.mpr hq
  constructor
  · show (if compute_Qupot ws dt > 0.5 * T * Swe then "Snowfall controlled"
      else "Wind controlled") = "Wind controlled"
    rw [if_neg hnot]
  · show (if compute_Qupot ws dt > 0.5 * T * Swe then 0.5 * T * (theta * Swe)
      else compute_Qupot ws dt) = 0
    rw [if_neg hnot, h0]

/-- C1 (amended): with `Qspot = 0.5 * T * Swe > 0` and an all-zero wind
series (`Qupot = 0`), `compute_snow_transport` takes the else-branch of
`Qupot > Qspot`, so it returns regime "Wind controlled" and `Qinf = 0`
(not "Snowfall controlled" with `Qinf = 0.5 * T * theta * Swe` as claimed). -/
theorem snow_transport_zero_wind_regime (T F theta Swe dt : ℝ) (ws : List ℝ)
    (hw : ∀ u ∈ ws, u = 0) (hq : 0 < 0.5 * T * Swe) :
    (compute_snow_transport T F theta Swe ws dt).control = "Wind controlled" ∧
    (compute_snow_transport T F theta Swe ws dt).Qinf = 0 :=
  snow_transport_all_zero_wind T F theta Swe dt ws hw (le_of_lt hq)

/-- Witness for C1 (amended) at `T = 2`, `F = 2`, `theta = 1`, `Swe = 1`,
wind `[0]`, `dt = 3600`. -/
theorem snow_transport_zero_wind_regime_witness :
    (∀ u ∈ [(0 : ℝ)], u = 0) ∧ (0 : ℝ) < 0.5 * 2 * 1 ∧
    (compute_snow_transport 2 2 1 1 [0] 3600).control = "Wind controlled" ∧
    (compute_snow_transport 2 2 1 1 [0] 3600).Qinf = 0 := by
  have h := snow_transport_zero_wind_regime 2 2 1 1 3600 [0] (by simp) (by norm_num)
  exact ⟨by simp, by norm_num, h.1, h.2⟩

/-- Counterexample to C1 as stated: at `T = 2`, `F = 2`, `theta = 1`,
`Swe = 1`, all-zero wind `[0]` and `Qspot = 0.5 * 2 * 1 = 1 > 0`, the code
returns regime "Wind controlled" (not "Snowfall controlled") and `Qinf = 0`
(not `0.5 * T * theta * Swe = 1`). -/
theorem snow_transport_zero_wind_counterexample :
    (0 : ℝ) < 0.5 * 2 * 1 ∧
    (compute_snow_transport 2 2 1 1 [0] 3600).control ≠ "Snowfall controlled" ∧
    (compute_snow_transport 2 2 1 1 [0] 3600).Qinf ≠ 0.5 * 2 * 1 * 1 := by
  have h := snow_transport_all_zero_wind 2 2 1 1 3600 [0] (by simp) (by norm_num)
  refine ⟨by norm_num, ?_, ?_⟩
  · rw [h.1]
    decide
  · rw [h.2]
    norm_num

/-- C3: under `T ≥ 0`, `Swe ≥ 0`, `0 ≤ theta ≤ 1`, the realized transport
never exceeds either potential: `Qinf ≤ min(Qupot, Qspot)` with
`Qspot = 0.5 * T * Swe`. -/
theorem Qinf_le_min_potentials (T F theta Swe dt : ℝ) (ws : List ℝ)
    (hT : 0 ≤ T) (hS : 0 ≤ Swe) (h0 : 0 ≤ theta) (h1 : theta ≤ 1) :
    (compute_snow_transport T F theta Swe ws dt).Qinf ≤
      min (compute_Qupot ws dt) (0.5 * T * Swe) := by
  have hq : (0 : ℝ) ≤ 0.5 * T * Swe := by positivity
  show (if compute_Qupot ws dt > 0.5 * T * Swe then 0.5 * T * (theta * Swe)
      else compute_Qupot ws dt) ≤ min (compute_Qupot ws dt) (0.5 * T * Swe)
  by_cases h : compute_Qupot ws dt > 0.5 * T * Swe
  · rw [if_pos h]
    have e : 0.5 * T * (theta * Swe) = theta * (0.5 * T * Swe) := by ring
    have hle : theta * (0.5 * T * Swe) ≤ 0.5 * T * Swe := mul_le_of_le_one_left hq h1
    rw [e]
    exact le_min (le_trans hle (le_of_lt h)) hle
  · rw [if_neg h]
    exact le_min (le_refl _) (not_lt.mp h)

/-- Witness for C3 at `T = 2`, `F = 2`, `theta = 1/2`, `Swe = 1`, empty wind
series, `dt = 3600`. -/
theorem Qinf_le_min_potentials_witness :
    (0 : ℝ) ≤ 2 ∧ (0 : ℝ) ≤ 1 ∧ (0 : ℝ) ≤ 1 / 2 ∧ (1 : ℝ) / 2 ≤ 1 ∧
    (compute_snow_transport 2 2 (1 / 2) 1 [] 3600).Qinf ≤
      min (compute_Qupot [] 3600) (0.5 * 2 * 1) :=
  ⟨by norm_num, by norm_num, by norm_num, by norm_num,
   Qinf_le_min_potentials 2 2 (1 / 2) 1 3600 [] (by norm_num) (by norm_num)
     (by norm_num) (by norm_num)⟩

/-! The seasonal aggregator: buckets, yearly results, entry points. -/

/-- A raw hourly observation row (`df_raw`): columns time, temperature_2m,
precipitation, wind_speed_10m, wind_direction_10m. -/
structure Row where
  time : Ts
  temperature_2m : ℝ
  precipitation : ℝ
  wind_speed_10m : ℝ
  wind_direction_10m : ℝ

/-- A row with its `season` column (`df["season"] = df["time"].apply(assign_season)`
in the entry points; `compute_yearly_results` receives rows of this shape). -/
structure SRow where
  time : Ts
  temperature_2m : ℝ
  precipitation : ℝ
  wind_speed_10m : ℝ
  wind_direction_10m : ℝ
  season : ℤ

/-- Adds the season column to a raw row. -/
def seasonize (r : Row) : SRow :=
  ⟨r.time, r.temperature_2m, r.precipitation, r.wind_speed_10m, r.wind_direction_10m,
    assign_season r.time⟩

/-- `pd.Timestamp(s, 7, 1)`: the start bound of season `s`. -/
def seasonStart (s : ℤ) : Ts := ⟨s, 7, 1, 0, 0, 0⟩

/-- `pd.Timestamp(s + 1, 6, 30, 23, 59)`: the end bound of season `s`. -/
def seasonEnd (s : ℤ) : Ts := ⟨s + 1, 6, 30, 23, 59, 0⟩

/-- The bucket filter `(df["time"] >= start) & (df["time"] <= end)`; pandas
compares Timestamps as absolute instants, i.e. by `Ts.toSec`. -/
def inSeasonB (s : ℤ) (r : SRow) : Bool :=
  decide ((seasonStart s).toSec ≤ r.time.toSec ∧ r.time.toSec ≤ (seasonEnd s).toSec)

/-- `df_s = df[(df["time"] >= start) & (df["time"] <= end)]`. -/
def seasonBucket (df : List SRow) (s : ℤ) : List SRow := df.filter (inSeasonB s)

/-- `sorted(df["season"].unique())`: the distinct season years in ascending
order (`sorted` of the distinct values; any stable sort of the deduplicated
list produces this same list). -/
def sortedSeasons (df : List SRow) : List ℤ :=
  ((df.map SRow.season).dedup).insertionSort (· ≤ ·)

/-- Per-bucket snow water equivalent:
`df_s.apply(precipitation if temperature_2m < 1 else 0).sum()`. -/
noncomputable def sweSum (l : List SRow) : ℝ :=
  (l.map (fun r => if r.temperature_2m < 1 then r.precipitation else 0)).sum

/-- One appended record of `compute_yearly_results`: the transport dict plus
the `season` key. -/
structure YEntry where
  transport : Transport
  season : ℤ

/-- The record built for one season inside the loop of
`compute_yearly_results`. -/
noncomputable def yearlyEntry (df : List SRow) (T F theta : ℝ) (s : ℤ) : YEntry :=
  ⟨compute_snow_transport T F theta (sweSum (seasonBucket df s))
      ((seasonBucket df s).map SRow.wind_speed_10m) 3600, s⟩

/-- Embeds `compute_yearly_results`: loop over the sorted distinct seasons,
restrict to the season interval, `continue` on an empty bucket, otherwise
append the transport record for that bucket. -/
noncomputable def compute_yearly_results (df : List SRow) (T F theta : ℝ) : List YEntry :=
  (sortedSeasons df).filterMap (fun s =>
    if (seasonBucket df s).isEmpty then none
    else some (yearlyEntry df T F theta s))

/-- Bar width of `compute_snow_drift_plotly`:
`end = start + pd.DateOffset(years=1) - pd.Timedelta(days=1)` (that is, the
instant one day before July 1 of the next year) and
`width_ms = (end - start).total_seconds() * 1000`. -/
def widthMs1 (s : ℤ) : ℤ :=
  ((seasonStart (s + 1)).toSec - 86400 - (seasonStart s).toSec) * 1000

/-- A yearly record of `compute_snow_drift_plotly` after the start/end/width
columns are attached. -/
structure YEntry2 where
  entry : YEntry
  start_sec : ℤ
  end_sec : ℤ
  width_ms : ℤ

/-- Attaches `start`, `end` and `width_ms` to one yearly record, as
`compute_snow_drift_plotly` does column-wise. -/
def attachWidth1 (e : YEntry) : YEntry2 :=
  ⟨e, (seasonStart e.season).toSec, (seasonStart (e.season + 1)).toSec - 86400,
    widthMs1 e.season⟩

/-- Embeds the data path of `compute_snow_drift_plotly` (figures are out of
scope): assign seasons, keep the requested season range, return the
Python `None` sentinel when nothing matches, otherwise the yearly results
with start/end/width columns. -/
noncomputable def compute_snow_drift_plotly (df : List Row) (start_year end_year : ℤ)
    (T F theta : ℝ) : Option (List YEntry2) :=
  let df1 := (df.map seasonize).filter
    (fun r => decide (start_year ≤ r.season ∧ r.season ≤ end_year))
  if df1.isEmpty then none
  else some ((compute_yearly_results df1 T F theta).map attachWidth1)

/-- One yearly record of `compute_monthly_and_yearly_Qt_plotly` before the
width column. -/
structure YRec where
  season : ℤ
  Qt_yearly : ℝ
  season_start : Ts
  season_end : Ts

/-- A yearly record with its `width_ms` column
(`(season_end - season_start).dt.total_seconds() * 1000.0`; the `center`
column is plotting-only and omitted). -/
structure YRec2 where
  yrec : YRec
  width_ms : ℤ

/-- Attaches the bar width to one yearly record of
`compute_monthly_and_yearly_Qt_plotly`. -/
def attachWidth2 (e : YRec) : YRec2 :=
  ⟨e, (e.season_end.toSec - e.season_start.toSec) * 1000⟩

/-- One monthly record: season, month start, monthly Qt. -/
structure MRec where
  season : ℤ
  month : Ts
  Qt_monthly : ℝ

/-- `df["time"].dt.to_period("M").dt.to_timestamp()`: the first instant of
the calendar month of the row. -/
def monthStart (t : Ts) : Ts := ⟨t.year, t.month, 1, 0, 0, 0⟩

/-- Embeds the data path of `compute_monthly_and_yearly_Qt_plotly`: sort by
time, assign seasons, filter the season range, return empty frames when
nothing matches, otherwise the per-season records (skipping empty buckets,
with width column) and the per-(season, month) records in groupby key
order. -/
noncomputable def compute_monthly_and_yearly_Qt_plotly (df : List Row)
    (year_start year_end : ℤ) (T F theta : ℝ) : List YRec2 × List MRec :=
  let df1 := ((df.insertionSort (fun a b => a.time.toSec ≤ b.time.toSec)).map
      seasonize).filter (fun r => decide (year_start ≤ r.season ∧ r.season ≤ year_end))
  if df1.isEmpty then ([], [])
  else
    let yearly := (sortedSeasons df1).filterMap (fun s =>
      if (seasonBucket df1 s).isEmpty then none
      else some (⟨s,
        (compute_snow_transport T F theta (sweSum (seasonBucket df1 s))
          ((seasonBucket df1 s).map SRow.wind_speed_10m) 3600).Qt,
        seasonStart s, seasonEnd s⟩ : YRec))
    if yearly.isEmpty then ([], [])
    else
      let keys := ((df1.map (fun r => (r.season, monthStart r.time))).dedup).insertionSort
        (fun a b => a.1 < b.1 ∨ (a.1 = b.1 ∧ a.2.toSec ≤ b.2.toSec))
      (yearly.map attachWidth2,
       keys.map (fun k =>
        let g := df1.filter (fun r => decide (r.season = k.1 ∧ monthStart r.time = k.2))
        ⟨k.1, k.2,
          (compute_snow_transport T F theta (sweSum g) (g.map SRow.wind_speed_10m) 3600).Qt⟩))

/-! Season bar widths (C6). -/

/-- Follows the wording of the spec for the attached bar width: the exact
millisecond span of the season, from July 1 00:00:00 of the season year to
the season end June 30 23:59:00 of the following year. -/
def specSeasonSpanMs (s : ℤ) : ℤ :=
  ((seasonEnd s).toSec - (seasonStart s).toSec) * 1000

/-- Shared helper: in any year, July 1 is the day after June 30. -/
lemma daysFromCivil_july1 (y : ℤ) : daysFromCivil y 7 1 = daysFromCivil y 6 30 + 1 := by
  simp only [daysFromCivil]
  norm_num
  ring

/-- Shared helper: the width attached by `compute_snow_drift_plotly` stops at
June 30 00:00 (one day before July 1), so it is 1439 minutes = 86,340,000 ms
short of the span that ends June 30 23:59. -/
lemma widthMs1_eq (s : ℤ) : widthMs1 s = specSeasonSpanMs s - 86340000 := by
  unfold widthMs1 specSeasonSpanMs seasonStart seasonEnd Ts.toSec
  simp only
  rw [daysFromCivil_july1 (s + 1)]
  ring

/-- C6 (amended): in `compute_monthly_and_yearly_Qt_plotly` the attached
width is exactly the millisecond span from July 1 00:00:00 to June 30
23:59:00 of the season; in `compute_snow_drift_plotly` the season end is
`start + 1 year - 1 day` (June 30 00:00:00), so its width is 86,340,000 ms
(23 h 59 min) short of that span. -/
theorem width_ms_spec :
    (∀ e : YEntry, (attachWidth1 e).width_ms = specSeasonSpanMs e.season - 86340000) ∧
    (∀ e : YRec, e.season_start = seasonStart e.season →
      e.season_end = seasonEnd e.season →
      (attachWidth2 e).width_ms = specSeasonSpanMs e.season) := by
  constructor
  · intro e
    exact widthMs1_eq e.season
  · intro e h1 h2
    show (e.season_end.toSec - e.season_start.toSec) * 1000 = _
    rw [h1, h2]
    rfl

/-- Witness for C6 (amended) at season 2020. -/
theorem width_ms_spec_witness :
    (attachWidth1 ⟨⟨0, 0, 0, 0, 0, "Wind controlled"⟩, 2020⟩).width_ms
      = specSeasonSpanMs 2020 - 86340000 ∧
    (attachWidth2 ⟨2020, 0, seasonStart 2020, seasonEnd 2020⟩).width_ms
      = specSeasonSpanMs 2020 :=
  ⟨width_ms_spec.1 ⟨⟨0, 0, 0, 0, 0, "Wind controlled"⟩, 2020⟩,
   width_ms_spec.2 ⟨2020, 0, seasonStart 2020, seasonEnd 2020⟩ rfl rfl⟩

/-- Counterexample to C6 as stated: running `compute_snow_drift_plotly` on a
single observation at 2020-07-01 00:00 with the default parameters attaches
`width_ms = 31,449,600,000` (364 days) to season 2020, while the millisecond
span ending June 30 23:59:00 is 31,535,940,000. -/
theorem width_ms_counterexample :
    (compute_snow_drift_plotly [⟨⟨2020, 7, 1, 0, 0, 0⟩, 0, 0, 0, 0⟩]
        2020 2020 3000 30000 0.5).map (fun l => l.map YEntry2.width_ms)
      = some [31449600000] ∧
    specSeasonSpanMs 2020 = 31535940000 ∧
    (31449600000 : ℤ) ≠ 31535940000 := by
  refine ⟨by decide, by decide, by decide⟩

/-! Yearly aggregation order, bucket restriction and skipping (C5). -/

/-- Shared helper: `filterMap` of a pairwise list is pairwise when the
produced elements inherit the relation. -/
lemma pairwise_filterMap_of {α β : Type} {R : α → α → Prop} {S : β → β → Prop}
    (f : α → Option β)
    (H : ∀ a b, R a b → ∀ x, f a = some x → ∀ y, f b = some y → S x y) :
    ∀ {l : List α}, l.Pairwise R → (l.filterMap f).Pairwise S := by
  intro l hl
  induction hl with
  | nil => simp
  | @cons a l ha _ ih =>
    rw [List.filterMap_cons]
    cases hfa : f a with
    | none => exact ih
    | some x =>
      refine List.Pairwise.cons ?_ ih
      intro y hy
      obtain ⟨b, hb, hfb⟩ := List.mem_filterMap.mp hy
      exact H a b (ha b hb) x hfa y hfb

/-- Shared helper: what it means for the loop body of
`compute_yearly_results` to emit a record for season `s`. -/
lemma yearly_some (df : List SRow) (T F theta : ℝ) {s : ℤ} {e : YEntry}
    (h : (if (seasonBucket df s).isEmpty then none
          else some (yearlyEntry df T F theta s)) = some e) :
    seasonBucket df s ≠ [] ∧ e = yearlyEntry df T F theta s ∧ e.season = s := by
  by_cases hb : (seasonBucket df s).isEmpty
  · rw [if_pos hb] at h
    exact absurd h (by simp)
  · rw [if_neg hb] at h
    have he : e = yearlyEntry df T F theta s := (Option.some_inj.mp h).symm
    refine ⟨?_, he, by rw [he]; rfl⟩
    intro hnil
    exact hb (by rw [hnil]; rfl)

/-- C5: `compute_yearly_results` emits records ordered by strictly ascending
season year, never emits a season whose restricted bucket is empty, computes
each record from exactly the rows of the closed interval
[July 1 00:00:00, June 30 23:59:00 of the next year], and the interval end
is 23:59:00 sharp: an observation at 23:59:59 of June 30 falls outside it. -/
theorem yearly_results_spec (df : List SRow) (T F theta : ℝ) :
    List.Pairwise (fun a b => a.season < b.season)
      (compute_yearly_results df T F theta) ∧
    (∀ s : ℤ, seasonBucket df s = [] →
      ∀ e ∈ compute_yearly_results df T F theta, e.season ≠ s) ∧
    (∀ e ∈ compute_yearly_results df T F theta,
      seasonBucket df e.season ≠ [] ∧ e = yearlyEntry df T F theta e.season ∧
      ∀ r ∈ df, (r ∈ seasonBucket df e.season ↔
        (seasonStart e.season).toSec ≤ r.time.toSec ∧
          r.time.toSec ≤ (seasonEnd e.season).toSec)) ∧
    (∀ s : ℤ, (seasonEnd s).toSec < (Ts.mk (s + 1) 6 30 23 59 59).toSec) := by
  have hsorted : List.Sorted (· ≤ ·) (sortedSeasons df) :=
    List.sorted_insertionSort _ _
  have hnodup : (sortedSeasons df).Nodup :=
    ((List.perm_insertionSort _ _).nodup_iff).mpr (List.nodup_dedup _)
  refine ⟨?_, ?_, ?_, ?_⟩
  · have hlt : List.Pairwise (fun a b : ℤ => a < b) (sortedSeasons df) :=
      (hsorted.and hnodup).imp fun h => lt_of_le_of_ne h.1 h.2
    exact pairwise_filterMap_of _
      (fun a b hab x hx y hy => by
        have ha := (yearly_some df T F theta hx).2.2
        have hb := (yearly_some df T F theta hy).2.2
        rw [ha, hb]
        exact hab)
      hlt
  · intro s hnil e he hs
    obtain ⟨s2, _, hf⟩ := List.mem_filterMap.mp he
    obtain ⟨hne, _, hseason⟩ := yearly_some df T F theta hf
    have h52 : s2 = s := by rw [← hseason]; exact hs
    exact hne (by rw [h52]; exact hnil)
  · intro e he
    obtain ⟨s2, _, hf⟩ := List.mem_filterMap.mp he
    obtain ⟨hne, heq, hseason⟩ := yearly_some df T F theta hf
    rw [hseason]
    refine ⟨hne, heq, fun r hr => ?_⟩
    simp [seasonBucket, List.mem_filter, hr, inSeasonB, decide_eq_true_eq]
  · intro s
    simp only [seasonEnd, Ts.toSec]
    omega

/-- Witness for C5 at the empty frame and default-like parameters. -/
theorem yearly_results_spec_witness :
    List.Pairwise (fun a b => a.season < b.season)
      (compute_yearly_results [] 3000 30000 0.5) :=
  (yearly_results_spec [] 3000 30000 0.5).1

/-! Empty season-range behaviour of the entry points (C9). -/

/-- Shared helper: a filter by a decidable predicate that no element
satisfies is empty. -/
lemma filter_decide_eq_nil {α : Type} (p : α → Prop) [DecidablePred p] (l : List α)
    (h : ∀ a ∈ l, ¬ p a) : l.filter (fun a => decide (p a)) = [] := by
  induction l with
  | nil => rfl
  | cons a t ih =>
    rw [List.filter_cons]
    have : ¬ p a := h a (List.mem_cons_self a t)
    simp only [decide_eq_true_eq]
    rw [if_neg this]
    exact ih fun b hb => h b (List.mem_cons_of_mem a hb)

/-- C9: when no observation falls in the requested season range, both entry
points return their no-data sentinel (Python `None` for
`compute_snow_drift_plotly`, empty frames for
`compute_monthly_and_yearly_Qt_plotly`) instead of raising. -/
theorem empty_range_spec (df : List Row) (ys ye : ℤ) (T F theta : ℝ)
    (h : ∀ r ∈ df, ¬ (ys ≤ assign_season r.time ∧ assign_season r.time ≤ ye)) :
    compute_snow_drift_plotly df ys ye T F theta = none ∧
    compute_monthly_and_yearly_Qt_plotly df ys ye T F theta = ([], []) := by
  have h1 : (df.map seasonize).filter
      (fun r => decide (ys ≤ r.season ∧ r.season ≤ ye)) = [] := by
    apply filter_decide_eq_nil
    intro a ha
    obtain ⟨r, hr, rfl⟩ := List.mem_map.mp ha
    exact h r hr
  have h2 : ((df.insertionSort (fun a b => a.time.toSec ≤ b.time.toSec)).map
      seasonize).filter (fun r => decide (ys ≤ r.season ∧ r.season ≤ ye)) = [] := by
    apply filter_decide_eq_nil
    intro a ha
    obtain ⟨r, hr, rfl⟩ := List.mem_map.mp ha
    exact h r ((List.perm_insertionSort _ df).mem_iff.mp hr)
  constructor
  · simp only [compute_snow_drift_plotly]
    rw [h1]
    rfl
  · simp only [compute_monthly_and_yearly_Qt_plotly]
    rw [h2]
    rfl

/-- Witness for C9: the empty observation list matches nothing, and both
entry points return their no-data value. -/
theorem empty_range_spec_witness :
    (∀ r ∈ ([] : List Row),
      ¬ (2020 ≤ assign_season r.time ∧ assign_season r.time ≤ 2021)) ∧
    compute_snow_drift_plotly [] 2020 2021 3000 30000 0.5 = none ∧
    compute_monthly_and_yearly_Qt_plotly [] 2020 2021 3000 30000 0.5 = ([], []) := by
  have h : ∀ r ∈ ([] : List Row),
      ¬ (2020 ≤ assign_season r.time ∧ assign_season r.time ≤ 2021) := by
    intro r hr
    exact absurd hr (List.not_mem_nil r)
  exact ⟨h, (empty_range_spec [] 2020 2021 3000 30000 0.5 h).1,
    (empty_range_spec [] 2020 2021 3000 30000 0.5 h).2⟩

end SnowDrift
